import Mathlib

/-!
Verification development for the kurigram-addons FSM storage subsystem.

The definitions below are a shallow embedding of the Python sources under
`pyrogram_patch/fsm/` (`base_storage.py`, `storages/memory_storage.py`,
`storages/redis_storage.py`, `storages/mongo_storage.py`), of
`patch_helper.py` (`create_key`) and of `fsm/context.py`
(`FSMContext._get_key`).

Modelling conventions:
- timestamps (`datetime`) are abstract instants modelled as `Nat`;
  `timedelta` TTL arguments are `Option Nat` (Python `None` is `none`);
  Python truthiness of a `timedelta` is `0 < t`.
- the `data` mapping of a record is an insertion-ordered association list
  `List (String × String)` (string keys and string values; this covers the
  inputs the claims quantify over, and the byte-size functions below are
  exact on values without quote or escape characters).
- fallible code returns an `Outcome`: `ok`, `err e` for a raised exception,
  and `hang` for a deterministic self-deadlock (a coroutine awaiting the
  non-reentrant `asyncio.Lock` that the same task already holds never
  resumes; this is the behaviour of `MemoryStorage._check_expired`
  calling `finish_state` while every caller of `_check_expired` holds
  `self._lock`).
- `MongoStorage` evaluates `datetime.now(datetime.timezone.utc)` at every
  point it needs the current time; since `datetime` names the *class*
  (imported with `from datetime import datetime`), which has no `timezone`
  attribute, that expression raises `AttributeError`.  The embedding
  returns `err attributeError` at exactly those program points.
-/

namespace KurigramAddons

/-- Exception taxonomy observed by the embedded code: the storage error
hierarchy of `base_storage.py` plus the builtin exceptions the storage code
can actually raise. -/
inductive PyErr where
  | stateNotFound
  | stateValidation
  | storageError
  | valueError
  | nameError
  | attributeError
  deriving DecidableEq, Repr

/-- Result of running one storage coroutine: a value, a raised exception, or
a never-resuming await (self-deadlock on the storage lock). -/
inductive Outcome (α : Type) where
  | ok (a : α)
  | err (e : PyErr)
  | hang
  deriving DecidableEq, Repr

/-- The `data` payload of a record: a Python dict with string keys and
string values, as an insertion-ordered association list. -/
abbrev Data := List (String × String)

/-- Association-list lookup (Python `dict.get` / `key in dict`). -/
def alGet {α : Type} : List (String × α) → String → Option α
  | [], _ => none
  | (k', v) :: rest, k => if k' = k then some v else alGet rest k

/-- Association-list store (Python `dict[key] = value`): replaces in place,
appends when the key is new — preserving insertion order like a dict. -/
def alSet {α : Type} : List (String × α) → String → α → List (String × α)
  | [], k, v => [(k, v)]
  | (k', v') :: rest, k, v =>
      if k' = k then (k, v) :: rest else (k', v') :: alSet rest k v

/-- Association-list removal (Python `dict.pop(key, None)`). -/
def alErase {α : Type} : List (String × α) → String → List (String × α)
  | [], _ => []
  | (k', v') :: rest, k =>
      if k' = k then alErase rest k else (k', v') :: alErase rest k

/-- Number of bytes of the UTF-8 encoding of a string
(Python `len(s.encode('utf-8'))`). -/
def utf8Len (s : String) : Nat :=
  s.data.foldl (fun n c => n + c.utf8Size) 0

/-- Python `str(data)` for a dict with string keys and values:
`{'k': 'v', ...}` (exact for strings without quotes or escapes). -/
def pyReprDict (d : Data) : String :=
  "\x7b" ++ String.intercalate ", "
    (d.map fun kv => "\x27" ++ kv.1 ++ "\x27: \x27" ++ kv.2 ++ "\x27") ++ "\x7d"

/-- `len(str(data).encode('utf-8'))` — the size check of
`MemoryStorage.set_data` and `MongoStorage.set_data`. -/
def pyStrSize (d : Data) : Nat := utf8Len (pyReprDict d)

/-- Python `json.dumps(data)` for a dict with string keys and values:
`{"k": "v", ...}` (default separators). -/
def jsonDumps (d : Data) : String :=
  "\x7b" ++ String.intercalate ", "
    (d.map fun kv => "\x22" ++ kv.1 ++ "\x22: \x22" ++ kv.2 ++ "\x22") ++ "\x7d"

/-- `len(json.dumps(data).encode('utf-8'))` — the size check of
`RedisStorage.set_data`. -/
def jsonSize (d : Data) : Nat := utf8Len (jsonDumps d)

/-- `BaseStorage.MAX_DATA_SIZE = 1024 * 1024`. -/
def MAX_DATA_SIZE : Nat := 1024 * 1024

/-- `StateData` from `base_storage.py`: one conversation's persisted record. -/
structure StateData where
  state : String
  data : Data
  created_at : Nat
  updated_at : Nat
  expires_at : Option Nat := none
  deriving DecidableEq, Repr

/-- The second positional argument of `MemoryStorage.set_state(key,
state_data)`: the code checks `isinstance(state_data, StateData)`, so the
embedding distinguishes a `StateData` argument from a plain string (which is
what a caller following the `BaseStorage.set_state(state, key)` contract
passes in that position). -/
inductive SetStateArg where
  | str (s : String)
  | stateData (sd : StateData)
  deriving DecidableEq, Repr

/-- The first argument of `set_data(data, key)`: the code checks
`isinstance(data, dict)`; `nonDict` stands for any non-mapping argument. -/
inductive DataArg where
  | dict (d : Data)
  | nonDict
  deriving DecidableEq, Repr

/-! ## MemoryStorage (`storages/memory_storage.py`) -/

/-- The in-memory table `self._storage : Dict[str, StateData]`. -/
abbrev MemStore := List (String × StateData)

/-- `MemoryStorage._check_expired(key)`, as executed by its callers — every
one of which already holds `self._lock`.  A missing key yields `true`
(the `except StateNotFoundError` branch); an expired record makes the code
call `self.finish_state(key)`, which re-acquires the already-held
non-reentrant lock and therefore never resumes (`hang`). -/
def memCheckExpired (σ : MemStore) (key : String) (now : Nat) : Outcome Bool :=
  match alGet σ key with
  | none => .ok true
  | some sd =>
      match sd.expires_at with
      | some e => if e ≤ now then .hang else .ok false
      | none => .ok false

/-- `MemoryStorage.get_or_create_state(key, default_state, ttl)`.  Returns
the state string handed to the `State` handle together with the updated
table. -/
def memGetOrCreateState (σ : MemStore) (key : String)
    (defaultState : Option String) (ttl : Option Nat) (now : Nat) :
    Outcome (String × MemStore) :=
  if key = "" then .err .stateValidation
  else
    match alGet σ key with
    | some sd =>
        -- `if not await self._check_expired(key): return State(...)`;
        -- an expired record makes `_check_expired` hang.
        (match sd.expires_at with
          | some e => if e ≤ now then .hang else .ok (sd.state, σ)
          | none => .ok (sd.state, σ))
    | none =>
        -- `state = default_state or "*"` (Python `or`: "" is falsy)
        let state := match defaultState with
          | some s => if s = "" then "*" else s
          | none => "*"
        -- `expires_at = (now + ttl) if ttl else None`
        let expires : Option Nat := match ttl with
          | some t => if 0 < t then some (now + t) else none
          | none => none
        .ok (state, alSet σ key ⟨state, [], now, now, expires⟩)

/-- `MemoryStorage.set_state(key, state_data)` — NOTE: this implementation's
signature is `(key, state_data : StateData)`, not the
`BaseStorage.set_state(state, key, ttl)` contract.  `ttlCfg` models the
optional `self.ttl` attribute probed with `hasattr` (absent unless a test
sets it). -/
def memSetState (σ : MemStore) (ttlCfg : Option Nat) (key : String)
    (state_data : SetStateArg) (now : Nat) : Outcome MemStore :=
  match state_data with
  | .str _ => .err .valueError  -- "state_data must be an instance of StateData"
  | .stateData sd =>
      -- `if hasattr(self, 'ttl') and self.ttl > 0`
      let expires_at : Option Nat := match ttlCfg with
        | some t => if 0 < t then some (now + t) else none
        | none => none
      let upd : StateData :=
        { state := sd.state
          data := sd.data
          created_at := sd.created_at  -- `state_data.created_at or now`; datetimes are truthy
          updated_at := now
          expires_at := match expires_at with
            | some e => some e
            | none => sd.expires_at }
      .ok (alSet σ key upd)

/-- `MemoryStorage.set_data(data, key, ttl)`.  Validates the mapping and its
`str`-encoded size, then writes; a missing key silently creates a record
with state `"*"` (the `except StateNotFoundError` branch). -/
def memSetData (σ : MemStore) (data : DataArg) (key : String)
    (ttl : Option Nat) (now : Nat) : Outcome MemStore :=
  match data with
  | .nonDict => .err .stateValidation  -- "Data must be a dictionary"
  | .dict d =>
      if MAX_DATA_SIZE < pyStrSize d then .err .stateValidation
      else
        let expires_at : Option Nat := match ttl with
          | some t => if 0 < t then some (now + t) else none
          | none => none
        match alGet σ key with
        | some ex =>
            .ok (alSet σ key ⟨ex.state, d, ex.created_at, now, expires_at⟩)
        | none =>
            .ok (alSet σ key ⟨"*", d, now, now, expires_at⟩)

/-- `MemoryStorage.get_data(key)`: `{}` when the key is missing; an expired
record makes `_check_expired` hang before the method can return. -/
def memGetData (σ : MemStore) (key : String) (now : Nat) : Outcome Data :=
  match memCheckExpired σ key now with
  | .hang => .hang
  | .err e => .err e
  | .ok true => .ok []
  | .ok false =>
      match alGet σ key with
      | some sd => .ok sd.data
      | none => .ok []

/-- `MemoryStorage.get_state_data(key)`: raises `StateNotFoundError` when the
key is missing; an expired record makes `_check_expired` hang. -/
def memGetStateData (σ : MemStore) (key : String) (now : Nat) :
    Outcome StateData :=
  match memCheckExpired σ key now with
  | .hang => .hang
  | .err e => .err e
  | .ok true => .err .stateNotFound
  | .ok false =>
      match alGet σ key with
      | some sd => .ok sd  -- returned as a fresh copy
      | none => .err .stateNotFound

/-- `MemoryStorage.finish_state(key)`: `self._storage.pop(key, None)` —
never raises. -/
def memFinishState (σ : MemStore) (key : String) : MemStore :=
  alErase σ key

/-- The per-key scan of `MemoryStorage.cleanup_expired`: the loop calls
`_check_expired` on every stored key while holding `self._lock`, so the
first expired record hangs the coroutine. -/
def memCleanupScan (now : Nat) : List (String × StateData) → Outcome Unit
  | [] => .ok ()
  | (_, sd) :: rest =>
      match sd.expires_at with
      | some e => if e ≤ now then .hang else memCleanupScan now rest
      | none => memCleanupScan now rest

/-- `MemoryStorage.cleanup_expired()`: if any record is expired the scan
hangs; otherwise `keys_to_remove` is empty and the trailing
`for key in keys:` loop raises `NameError` (`keys` is never defined). -/
def memCleanupExpired (σ : MemStore) (now : Nat) : Outcome (Nat × MemStore) :=
  match memCleanupScan now σ with
  | .hang => .hang
  | _ => .err .nameError

/-! ## RedisStorage (`storages/redis_storage.py`)

A record maps onto two Redis keys: a hash `fsm:meta:<key>` and a string
`fsm:data:<key>`.  Native per-key expiry (`EXPIRE`) is modelled by a
`ttlAt` deadline on each entry: a read at instant `now` sees the entry only
while `now < ttlAt`; writing over a dead entry behaves as writing a fresh
key (Redis removes the key exactly at its deadline). -/

/-- The `fsm:meta:<key>` hash: the four metadata fields, plus the native
`EXPIRE` deadline of the Redis key itself. -/
structure RMeta where
  state : String
  created_at : Nat
  updated_at : Nat
  expires_at : Option Nat := none
  ttlAt : Option Nat := none
  deriving DecidableEq, Repr

/-- The `fsm:data:<key>` string: the JSON payload plus its own native
`EXPIRE` deadline. -/
structure RData where
  payload : Data
  ttlAt : Option Nat := none
  deriving DecidableEq, Repr

/-- The relevant slice of the Redis keyspace. -/
structure RedisStore where
  meta : List (String × RMeta) := []
  dataK : List (String × RData) := []
  deriving DecidableEq, Repr

/-- A Redis key with deadline `ttlAt` is still visible at instant `now`. -/
def rLive (ttlAt : Option Nat) (now : Nat) : Bool :=
  match ttlAt with
  | none => true
  | some d => now < d

/-- The meta hash for `key` as Redis reads see it at `now` (absent once its
native TTL has elapsed). -/
def redisLiveMeta (σ : RedisStore) (key : String) (now : Nat) : Option RMeta :=
  match alGet σ.meta key with
  | some m => if rLive m.ttlAt now then some m else none
  | none => none

/-- The data string for `key` as Redis reads see it at `now`. -/
def redisLiveData (σ : RedisStore) (key : String) (now : Nat) : Option RData :=
  match alGet σ.dataK key with
  | some d => if rLive d.ttlAt now then some d else none
  | none => none

/-- `RedisStorage._set_state_meta(key, state, ttl)`: `HSET` of
`state`/`created_at`/`updated_at` (plus `expires_at` when a truthy TTL is
given), preserving an existing `created_at` (read with `HGET`) and, since
`HSET` neither clears absent fields nor the key's TTL, preserving an
existing `expires_at` field and native deadline when no TTL is given;
`EXPIRE` is issued only under `if ttl:`. -/
def redisSetStateMeta (σ : RedisStore) (key state : String)
    (ttl : Option Nat) (now : Nat) : RedisStore :=
  let expires : Option Nat := match ttl with
    | some t => if 0 < t then some (now + t) else none
    | none => none
  let existing := redisLiveMeta σ key now
  let created : Nat := match existing with
    | some m => m.created_at
    | none => now
  let newMeta : RMeta :=
    { state := state
      created_at := created
      updated_at := now
      expires_at := match expires with
        | some e => some e
        | none => match existing with
          | some m => m.expires_at
          | none => none
      ttlAt := match expires with
        | some e => some e
        | none => match existing with
          | some m => m.ttlAt
          | none => none }
  { σ with meta := alSet σ.meta key newMeta }

/-- `RedisStorage.set_state(state, key, ttl)`:
`if not state or not isinstance(state, str)` → `StateValidationError`. -/
def redisSetState (σ : RedisStore) (state key : String)
    (ttl : Option Nat) (now : Nat) : Outcome RedisStore :=
  if state = "" then .err .stateValidation
  else .ok (redisSetStateMeta σ key state ttl now)

/-- `RedisStorage.set_data(data, key, ttl)`: validates the mapping and its
JSON size; `SET`s the data key (clearing any previous native TTL, with
`EXPIRE` only under `if ttl:`) or `DEL`etes it when the dict is empty; then,
under `if ttl is not None:`, refreshes the meta TTL — raising
`StateNotFoundError` from `_get_state_meta` when no meta hash exists. -/
def redisSetData (σ : RedisStore) (data : DataArg) (key : String)
    (ttl : Option Nat) (now : Nat) : Outcome RedisStore :=
  match data with
  | .nonDict => .err .stateValidation
  | .dict d =>
      if MAX_DATA_SIZE < jsonSize d then .err .stateValidation
      else
        let nd : RData :=
          { payload := d
            ttlAt := match ttl with
              | some t => if 0 < t then some (now + t) else none
              | none => none }
        let σ1 : RedisStore :=
          if d = [] then { σ with dataK := alErase σ.dataK key }
          else { σ with dataK := alSet σ.dataK key nd }
        match ttl with
        | none => .ok σ1
        | some _ =>
            match redisLiveMeta σ1 key now with
            | none => .err .stateNotFound
            | some m => .ok (redisSetStateMeta σ1 key m.state ttl now)

/-- `RedisStorage.get_data(key)`: `{}` when the data key is missing (or
natively expired). -/
def redisGetData (σ : RedisStore) (key : String) (now : Nat) : Data :=
  match redisLiveData σ key now with
  | some rd => rd.payload
  | none => []

/-- `RedisStorage.get_state_data(key)`: reads the meta hash (raising
`StateNotFoundError` when it is absent or natively expired) and the data
payload. -/
def redisGetStateData (σ : RedisStore) (key : String) (now : Nat) :
    Outcome StateData :=
  match redisLiveMeta σ key now with
  | none => .err .stateNotFound
  | some m =>
      .ok ⟨m.state, redisGetData σ key now, m.created_at, m.updated_at,
           m.expires_at⟩

/-- `RedisStorage.finish_state(key)`: one pipeline `DEL`eting both keys;
deleting a missing key is a no-op, so this never raises. -/
def redisFinishState (σ : RedisStore) (key : String) : RedisStore :=
  ⟨alErase σ.meta key, alErase σ.dataK key⟩

/-- `RedisStorage.cleanup_expired()`: native TTL does the removal;
the method returns 0 unconditionally. -/
def redisCleanupExpired (_ : RedisStore) : Nat := 0

/-! ## MongoStorage (`storages/mongo_storage.py`)

One document per key.  `mongo_storage.py` does
`from datetime import datetime, timedelta` and then writes
`datetime.now(datetime.timezone.utc)` — an `AttributeError` (the `datetime`
class has no `timezone` attribute) at every point the current time is
needed. -/

/-- A document of the `states` collection. -/
structure MDoc where
  state : String
  data : Data
  created_at : Nat
  updated_at : Nat
  expires_at : Option Nat := none
  deriving DecidableEq, Repr

/-- The collection, keyed by the unique `key` field. -/
abbrev MongoStore := List (String × MDoc)

/-- `MongoStorage._get_state_document(key)`: missing → `StateNotFoundError`;
a document whose truthy `expires_at` field is set makes the guard
`doc['expires_at'] < datetime.now(datetime.timezone.utc)` evaluate the
broken time expression → `AttributeError` (regardless of whether the
deadline lies in the past or the future). -/
def mongoGetStateDocument (σ : MongoStore) (key : String) : Outcome MDoc :=
  match alGet σ key with
  | none => .err .stateNotFound
  | some doc =>
      match doc.expires_at with
      | some _ => .err .attributeError
      | none => .ok doc

/-- `MongoStorage.get_or_create_state(key, default_state, ttl)`: the
creation branch needs `now` and therefore raises `AttributeError`. -/
def mongoGetOrCreateState (σ : MongoStore) (key : String)
    (_defaultState : Option String) (_ttl : Option Nat) :
    Outcome (String × MongoStore) :=
  if key = "" then .err .stateValidation
  else
    match mongoGetStateDocument σ key with
    | .ok doc => .ok (doc.state, σ)
    | .err .stateNotFound => .err .attributeError
    | .err e => .err e
    | .hang => .hang

/-- `MongoStorage.set_state(state, key, ttl)`: empty-state validation fires
first; every surviving call then evaluates the broken time expression →
`AttributeError`. -/
def mongoSetState (state _key : String) (_ttl : Option Nat)
    (_σ : MongoStore) : Outcome MongoStore :=
  if state = "" then .err .stateValidation
  else .err .attributeError

/-- `MongoStorage.set_data(data, key, ttl)`: mapping and size validation
fire first; every surviving call then evaluates the broken time expression →
`AttributeError` (before the `update_one`/`matched_count` not-found check
is ever reached). -/
def mongoSetData (data : DataArg) (_key : String) (_ttl : Option Nat)
    (_σ : MongoStore) : Outcome MongoStore :=
  match data with
  | .nonDict => .err .stateValidation
  | .dict d =>
      if MAX_DATA_SIZE < pyStrSize d then .err .stateValidation
      else .err .attributeError

/-- `MongoStorage.get_data(key)`: catches only `StateNotFoundError`
(→ `{}`) and `PyMongoError`; the `AttributeError` from a document with
`expires_at` set propagates. -/
def mongoGetData (σ : MongoStore) (key : String) : Outcome Data :=
  match mongoGetStateDocument σ key with
  | .ok doc => .ok doc.data
  | .err .stateNotFound => .ok []
  | .err e => .err e
  | .hang => .hang

/-- `MongoStorage.get_state_data(key)`: builds a `StateData` from the
document; absence raises `StateNotFoundError`, a set `expires_at` raises
`AttributeError`. -/
def mongoGetStateData (σ : MongoStore) (key : String) : Outcome StateData :=
  match mongoGetStateDocument σ key with
  | .ok doc =>
      .ok ⟨doc.state, doc.data, doc.created_at, doc.updated_at, doc.expires_at⟩
  | .err e => .err e
  | .hang => .hang

/-- `MongoStorage.finish_state(key)`: `delete_one({'key': key})`, raising
`StateNotFoundError` when `deleted_count == 0`. -/
def mongoFinishState (σ : MongoStore) (key : String) : Outcome MongoStore :=
  match alGet σ key with
  | some _ => .ok (alErase σ key)
  | none => .err .stateNotFound

/-- `MongoStorage.cleanup_expired()`: the `delete_many` filter evaluates the
broken time expression → `AttributeError`. -/
def mongoCleanupExpired (_ : MongoStore) : Outcome (Nat × MongoStore) :=
  .err .attributeError

/-! ## Key derivation (`patch_helper.py` and `fsm/context.py`)

Update objects are duck-typed; `hasattr` probing is modelled by an outer
`Option` (attribute present?) around an inner `Option` (attribute not
`None`?).  Pyrogram `Message` objects always carry `from_user` and `chat`
attributes (possibly `None`), so `MsgRef` uses a single `Option`. -/

/-- A `from_user` reference (only the id matters to key derivation). -/
structure UserRef where
  id : Int
  deriving DecidableEq, Repr

/-- A `chat` reference. -/
structure ChatRef where
  id : Int
  deriving DecidableEq, Repr

/-- A nested `message` object: `from_user` and `chat` attributes always
exist on a Message but may be `None`. -/
structure MsgRef where
  from_user : Option UserRef := none
  chat : Option ChatRef := none
  deriving DecidableEq, Repr

/-- An inbound update: each top-level field is `none` when the attribute is
absent (`hasattr` is false), `some none` when present but `None`. -/
structure PUpdate where
  from_user : Option (Option UserRef) := none
  chat : Option (Option ChatRef) := none
  message : Option (Option MsgRef) := none
  deriving DecidableEq, Repr

/-- `create_key(parsed_update, client)` from `patch_helper.py`: both id
components start as `"unknown"` and are overwritten only when the
corresponding attribute chain is present and non-`None`; the result is
`f"{client.me.id}-{user_id}-{chat_id}"`. -/
def create_key (parsed_update : PUpdate) (client_me_id : Int) : String :=
  let user_id := "unknown"
  let user_id :=
    match parsed_update.from_user with
    | some (some fu) => toString fu.id
    | _ =>
        match parsed_update.message with
        | some (some m) =>
            match m.from_user with
            | some fu => toString fu.id
            | none => user_id
        | _ => user_id
  let chat_id := "unknown"
  let chat_id :=
    match parsed_update.chat with
    | some (some c) => toString c.id
    | _ =>
        match parsed_update.message with
        | some (some m) =>
            match m.chat with
            | some c => toString c.id
            | none => chat_id
        | _ => chat_id
  toString client_me_id ++ "-" ++ user_id ++ "-" ++ chat_id

/-- `FSMContext._get_key(update)` from `fsm/context.py`:
`chat_id = update.chat.id if hasattr(update, 'chat') else
update.message.chat.id` and `user_id = update.from_user.id`, then
`f"{chat_id}:{user_id}"`.  `none` is an uncaught `AttributeError`
(`update.chat` present but `None`, or `message`/`from_user` missing or
`None`); no client identity enters the key. -/
def fsmGetKey (u : PUpdate) : Option String := do
  let chatId ←
    match u.chat with
    | some (some c) => pure c.id
    | some none => none
    | none =>
        match u.message with
        | some (some m) =>
            match m.chat with
            | some c => pure c.id
            | none => none
        | _ => none
  let userId ←
    match u.from_user with
    | some (some fu) => pure fu.id
    | _ => none
  pure (toString chatId ++ ":" ++ toString userId)

/-- Modelled from the spec for the amended C9 statement: "the user id
determinable from the update" — `from_user` directly, else through
`message.from_user`. -/
def specUserId (u : PUpdate) : Option Int :=
  match u.from_user with
  | some (some fu) => some fu.id
  | _ =>
      match u.message with
      | some (some m) => m.from_user.map (·.id)
      | _ => none

/-- Modelled from the spec for the amended C9 statement: "the chat id
determinable from the update". -/
def specChatId (u : PUpdate) : Option Int :=
  match u.chat with
  | some (some c) => some c.id
  | _ =>
      match u.message with
      | some (some m) => m.chat.map (·.id)
      | _ => none

/-- Render an optional id the way `create_key` does: the id's decimal
string, or the sentinel `"unknown"`. -/
def idOrUnknown : Option Int → String
  | some i => toString i
  | none => "unknown"

/-! ## Helper lemmas about association lists -/

/-- Removing one key does not change the binding of any other key. -/
theorem alGet_alErase_ne {α : Type} :
    ∀ (σ : List (String × α)) (k k' : String), k' ≠ k →
      alGet (alErase σ k) k' = alGet σ k'
  | [], _, _, _ => rfl
  | (k0, v) :: rest, k, k', h => by
      by_cases h0 : k0 = k
      · have hne : ¬ (k0 = k') := fun hh => h (hh ▸ h0 ▸ rfl)
        simp only [alErase, alGet, if_pos h0, if_neg hne]
        exact alGet_alErase_ne rest k k' h
      · by_cases h1 : k0 = k'
        · simp only [alErase, alGet, if_neg h0, if_pos h1]
        · simp only [alErase, alGet, if_neg h0, if_neg h1]
          exact alGet_alErase_ne rest k k' h

/-- Removing a key twice is the same as removing it once. -/
theorem alErase_idem {α : Type} :
    ∀ (σ : List (String × α)) (k : String),
      alErase (alErase σ k) k = alErase σ k
  | [], _ => rfl
  | (k0, v) :: rest, k => by
      by_cases h0 : k0 = k
      · simp only [alErase, if_pos h0]
        exact alErase_idem rest k
      · simp only [alErase, if_neg h0]
        rw [alErase_idem rest k]

/-- After removing a key it is no longer bound. -/
theorem alGet_alErase_self {α : Type} :
    ∀ (σ : List (String × α)) (k : String), alGet (alErase σ k) k = none
  | [], _ => rfl
  | (k0, v) :: rest, k => by
      by_cases h0 : k0 = k
      · simp only [alErase, if_pos h0]
        exact alGet_alErase_self rest k
      · simp only [alErase, alGet, if_neg h0]
        exact alGet_alErase_self rest k

/-! ## The claims -/

/-- Claim C1: the round trip `set_state(state, key)`; `set_data(data, key)`;
`get_state_data(key)` should, on any backend, return a record with that
state and data and `updated_at >= created_at`.  The round trip breaks at its
first step on two of the three backends: `MemoryStorage.set_state` takes
`(key, state_data : StateData)` rather than the `BaseStorage` contract
`(state, key)`, so a call made per the contract raises
`ValueError("state_data must be an instance of StateData")`; and
`MongoStorage.set_state` evaluates `datetime.now(datetime.timezone.utc)`
and raises `AttributeError` on every call that passes validation. -/
theorem c1_round_trip_first_step_crashes :
    memSetState [] none "waiting_weight" (.str "1-2-3") 0
      = .err .valueError ∧
    mongoSetState "waiting_weight" "1-2-3" none [] = .err .attributeError :=
  ⟨rfl, rfl⟩

/-- Claim C2: a record whose `expires_at` lies in the past should read as
absent.  Instead, on `MemoryStorage` both `get_state_data` and
`get_or_create_state` hang: `_check_expired` calls `finish_state`, which
re-acquires the non-reentrant `asyncio.Lock` the caller already holds; and
on `MongoStorage` the expiry guard of `_get_state_document` raises
`AttributeError` (`datetime.timezone` on the `datetime` class). -/
theorem c2_expired_record_not_reported_absent :
    memGetStateData [("k", ⟨"s", [], 0, 0, some 50⟩)] "k" 100 = .hang ∧
    memGetOrCreateState [("k", ⟨"s", [], 0, 0, some 50⟩)] "k" none none 100
      = .hang ∧
    mongoGetStateData [("k", ⟨"s", [], 0, 0, some 50⟩)] "k"
      = .err .attributeError :=
  ⟨rfl, rfl, rfl⟩

/-- Claim C3: `set_state(state="", key)` should raise
`StateValidationError` on every backend.  It does on Redis and Mongo, but on
`MemoryStorage` the call (made per the `BaseStorage.set_state(state, key)`
contract) raises plain `ValueError` because the second positional argument
is expected to be a `StateData`; the empty string is never validated. -/
theorem c3_empty_state_validation_broken_on_memory :
    memSetState [] none "" (.str "key1") 3 = .err .valueError ∧
    redisSetState ⟨[], []⟩ "" "key1" none 3 = .err .stateValidation ∧
    mongoSetState "" "key1" none [] = .err .stateValidation :=
  ⟨rfl, rfl, rfl⟩

/-- Claim C4: on an existing record, `set_state(state, key)` should update
only the state field and refresh `updated_at`.  On `MemoryStorage` the call
raises `ValueError` (signature mismatch) and refreshes nothing; on
`MongoStorage` it raises `AttributeError`; on `RedisStorage` the claimed
frame property does hold (state replaced, `updated_at` refreshed,
`created_at` and the data payload untouched), shown here at a concrete
store. -/
theorem c4_set_state_frame_broken_on_memory_and_mongo :
    memSetState [("k", ⟨"old", [("a", "b")], 1, 1, none⟩)] none
        "new_state" (.str "k") 9 = .err .valueError ∧
    mongoSetState "new_state" "k" none [("k", ⟨"old", [("a", "b")], 1, 1, none⟩)]
      = .err .attributeError ∧
    redisSetState ⟨[("k", ⟨"old", 1, 1, none, none⟩)],
                   [("k", ⟨[("a", "b")], none⟩)]⟩ "new_state" "k" none 9
      = .ok ⟨[("k", ⟨"new_state", 1, 9, none, none⟩)],
             [("k", ⟨[("a", "b")], none⟩)]⟩ :=
  ⟨rfl, rfl, rfl⟩

/-- Claim C5: `set_data(data, key)` on a key with no record should raise
`StateNotFoundError`.  `MemoryStorage.set_data` instead silently creates a
record with state `"*"` (its `except StateNotFoundError` branch), and
`MongoStorage.set_data` raises `AttributeError` before its
`matched_count == 0` not-found check can run. -/
theorem c5_set_data_missing_key_autocreates_on_memory :
    memSetData [] (.dict [("a", "b")]) "k" none 7
      = .ok [("k", ⟨"*", [("a", "b")], 7, 7, none⟩)] ∧
    mongoSetData (.dict [("a", "b")]) "k" none [] = .err .attributeError :=
  ⟨rfl, rfl⟩

/-- Claim C6: `get_data(key)` should return `{}` for a missing or expired
record without raising.  The missing-key half holds everywhere, but for an
expired record `MemoryStorage.get_data` hangs on the re-acquired lock and
`MongoStorage.get_data` propagates the `AttributeError` from
`_get_state_document` (raised for any document with `expires_at` set). -/
theorem c6_get_data_on_expired_record_broken :
    memGetData [] "k" 100 = .ok [] ∧
    memGetData [("k", ⟨"s", [("a", "b")], 0, 0, some 50⟩)] "k" 100 = .hang ∧
    mongoGetData [("k", ⟨"s", [("a", "b")], 0, 0, some 50⟩)] "k"
      = .err .attributeError :=
  ⟨rfl, rfl, rfl⟩

/-- Claim C7: `finish_state(key)` on an absent key leaves every other key
untouched, and a second `finish_state(key)` is safe on every backend:
memory (`pop(key, None)`) and Redis (pipeline `DEL`) succeed silently and
idempotently, and Mongo reports exactly the "already gone" signal
`StateNotFoundError` — never a different error. -/
theorem c7_finish_state_absent_key_safe (σm : MemStore) (σr : RedisStore)
    (σg : MongoStore) (k k' : String) (h : k' ≠ k) :
    alGet (memFinishState σm k) k' = alGet σm k' ∧
    memFinishState (memFinishState σm k) k = memFinishState σm k ∧
    alGet (redisFinishState σr k).meta k' = alGet σr.meta k' ∧
    alGet (redisFinishState σr k).dataK k' = alGet σr.dataK k' ∧
    redisFinishState (redisFinishState σr k) k = redisFinishState σr k ∧
    (alGet σg k = none → mongoFinishState σg k = .err .stateNotFound) ∧
    (∀ σg', mongoFinishState σg k = .ok σg' →
      alGet σg' k' = alGet σg k' ∧
      mongoFinishState σg' k = .err .stateNotFound) := by
  refine ⟨alGet_alErase_ne σm k k' h, alErase_idem σm k,
    alGet_alErase_ne σr.meta k k' h, alGet_alErase_ne σr.dataK k k' h,
    ?_, ?_, ?_⟩
  · show (⟨alErase (alErase σr.meta k) k, alErase (alErase σr.dataK k) k⟩ :
        RedisStore) = ⟨alErase σr.meta k, alErase σr.dataK k⟩
    rw [alErase_idem, alErase_idem]
  · intro hnone
    unfold mongoFinishState
    rw [hnone]
  · intro σg' hok
    unfold mongoFinishState at hok
    cases hget : alGet σg k with
    | none => rw [hget] at hok; exact absurd hok (by simp)
    | some doc =>
        rw [hget] at hok
        have hσ : alErase σg k = σg' := by
          have := hok
          simp only [Outcome.ok.injEq] at this
          exact this
        subst hσ
        refine ⟨alGet_alErase_ne σg k k' h, ?_⟩
        unfold mongoFinishState
        rw [alGet_alErase_self]

/-- Witness for C7 at a concrete pair of keys and concrete stores. -/
theorem c7_witness :
    alGet (memFinishState [("b", (⟨"s", [], 0, 0, none⟩ : StateData))] "a") "b"
        = alGet [("b", (⟨"s", [], 0, 0, none⟩ : StateData))] "b" ∧
    memFinishState (memFinishState [("b", (⟨"s", [], 0, 0, none⟩ : StateData))] "a") "a"
        = memFinishState [("b", (⟨"s", [], 0, 0, none⟩ : StateData))] "a" ∧
    alGet (redisFinishState ⟨[], []⟩ "a").meta "b" = alGet (RedisStore.mk [] []).meta "b" ∧
    alGet (redisFinishState ⟨[], []⟩ "a").dataK "b" = alGet (RedisStore.mk [] []).dataK "b" ∧
    redisFinishState (redisFinishState ⟨[], []⟩ "a") "a" = redisFinishState ⟨[], []⟩ "a" ∧
    (alGet [("a", (⟨"s", [], 0, 0, none⟩ : MDoc))] "a" = none →
      mongoFinishState [("a", (⟨"s", [], 0, 0, none⟩ : MDoc))] "a" = .err .stateNotFound) ∧
    (∀ σg', mongoFinishState [("a", (⟨"s", [], 0, 0, none⟩ : MDoc))] "a" = .ok σg' →
      alGet σg' "b" = alGet [("a", (⟨"s", [], 0, 0, none⟩ : MDoc))] "b" ∧
      mongoFinishState σg' "a" = .err .stateNotFound) :=
  c7_finish_state_absent_key_safe
    [("b", (⟨"s", [], 0, 0, none⟩ : StateData))] ⟨[], []⟩
    [("a", (⟨"s", [], 0, 0, none⟩ : MDoc))] "a" "b" (by decide)

/-- Claim C8: `cleanup_expired()` should remove every expired record and
return the count (a no-op returning 0 on Redis).  The Redis half holds, but
`MemoryStorage.cleanup_expired` never returns a count: with no expired
record it raises `NameError` (its final loop iterates over an undefined
variable `keys`), and with an expired record it hangs in `_check_expired`
re-acquiring the held lock.  `MongoStorage.cleanup_expired` raises
`AttributeError` from its broken current-time expression. -/
theorem c8_cleanup_expired_never_returns_count :
    memCleanupExpired [] 0 = .err .nameError ∧
    memCleanupExpired [("k", ⟨"s", [], 0, 0, none⟩)] 100 = .err .nameError ∧
    memCleanupExpired [("k", ⟨"s", [], 0, 0, some 50⟩)] 100 = .hang ∧
    mongoCleanupExpired [] = .err .attributeError ∧
    redisCleanupExpired ⟨[("k", ⟨"s", 0, 0, some 1, some 1⟩)], []⟩ = 0 :=
  ⟨rfl, rfl, rfl, rfl, rfl⟩

/-- Counterexample to claim C9 as stated: key derivation does not always
succeed with a sentinel substituted — `FSMContext._get_key` on an update
that has a `chat` but no determinable user raises `AttributeError`
(modelled as `none`) instead of substituting `"unknown"`. -/
theorem c9_counterexample :
    fsmGetKey { chat := some (some ⟨5⟩), from_user := none, message := none }
      = none :=
  rfl

/-- Claim C9 as amended: the dispatch-path derivation `create_key` builds
the key from the client identity plus the user and chat ids, substituting
the sentinel `"unknown"` for either component that cannot be determined,
and never fails; `FSMContext._get_key`, by contrast, builds its key from
the chat and user ids only (no client identity) and can fail. -/
theorem c9_amended_key_derivation :
    (∀ (cid : Int) (u : PUpdate),
        create_key u cid =
          toString cid ++ "-" ++ idOrUnknown (specUserId u) ++ "-" ++
            idOrUnknown (specChatId u)) ∧
    (∀ (c uid : Int),
        fsmGetKey { chat := some (some ⟨c⟩), from_user := some (some ⟨uid⟩),
                    message := none }
          = some (toString c ++ ":" ++ toString uid)) ∧
    (∃ u : PUpdate, fsmGetKey u = none) := by
  refine ⟨?_, fun c uid => rfl,
    ⟨{ chat := none, from_user := none, message := none }, rfl⟩⟩
  intro cid u
  rcases u with ⟨_ | (_ | fu), _ | (_ | ch), _ | (_ | ⟨_ | mfu, _ | mch⟩)⟩ <;>
    rfl

/-- Claim C10: on the in-memory backend, `set_data` on an existing record
(here: one that has an expiry set) replaces `expires_at` — with `None` when
no TTL is passed, and with `now + ttl` when a (truthy) TTL is passed —
while keeping the state and `created_at` of the record and installing the
new data. -/
theorem c10_mem_set_data_overwrites_expiry (σ : MemStore) (k : String)
    (sd : StateData) (d : Data) (now t : Nat)
    (hex : alGet σ k = some sd) (_hsome : sd.expires_at.isSome = true)
    (hsize : pyStrSize d ≤ MAX_DATA_SIZE) (ht : 0 < t) :
    memSetData σ (.dict d) k none now
      = .ok (alSet σ k ⟨sd.state, d, sd.created_at, now, none⟩) ∧
    memSetData σ (.dict d) k (some t) now
      = .ok (alSet σ k ⟨sd.state, d, sd.created_at, now, some (now + t)⟩) := by
  have hns : ¬ (MAX_DATA_SIZE < pyStrSize d) := Nat.not_lt.mpr hsize
  constructor
  · simp only [memSetData, if_neg hns, hex]
  · simp only [memSetData, if_neg hns, hex, if_pos ht]

/-- Witness for C10: a concrete record with `expires_at = some 9` under key
`"k"`; `set_data` without a TTL clears the expiry, with TTL 5 at instant 10
it becomes 15. -/
theorem c10_witness :
    memSetData [("k", ⟨"s", [("x", "y")], 1, 2, some 9⟩)]
        (.dict [("w", "70")]) "k" none 10
      = .ok [("k", ⟨"s", [("w", "70")], 1, 10, none⟩)] ∧
    memSetData [("k", ⟨"s", [("x", "y")], 1, 2, some 9⟩)]
        (.dict [("w", "70")]) "k" (some 5) 10
      = .ok [("k", ⟨"s", [("w", "70")], 1, 10, some 15⟩)] :=
  c10_mem_set_data_overwrites_expiry
    [("k", ⟨"s", [("x", "y")], 1, 2, some 9⟩)] "k"
    ⟨"s", [("x", "y")], 1, 2, some 9⟩ [("w", "70")] 10 5
    rfl rfl (by decide) (by decide)

end KurigramAddons
